import Mathlib

/-!
Verification of the MarineTraffic MCP server core: identifier validation
and normalization at the tool/resource entry points, the API client's
query-parameter construction, retry/backoff and error classification,
the search tool's criteria checks and in-place IMO normalization, the
combined vessel lookup's per-branch failure handling, and the formatting
layer's truthiness-based rendering of optional numeric fields.

All definitions are shallow embeddings of the TypeScript source
(src/api-client.ts, src/tools/vessel-position.ts, src/tools/vessel-details.ts,
src/tools/vessel-search.ts, src/resources/vessel.ts).
-/

namespace MarineTraffic

/-- MCP error codes used by the server (from the MCP SDK). -/
inductive ErrCode where
  | invalidParams
  | invalidRequest
  | internalError
deriving DecidableEq, Repr

/-- An `McpError(code, message)` as thrown throughout the source. -/
structure McpError where
  code : ErrCode
  message : String
deriving DecidableEq, Repr

/-! ## Identifier format predicates

The source tests identifiers with the regexes `/^\d{9}$/`, `/^IMO\d{7}$/`
and `/^\d{7}$/`, and strips the `IMO` prefix with
`identifier.startsWith('IMO') ? identifier.substring(3) : identifier`.
We model the regexes as decidable predicates on the character list. -/

/-- `/^\d{9}$/`: exactly nine ASCII digits (MMSI format). -/
def isMMSIFormat (s : String) : Bool :=
  s.data.length == 9 && s.data.all Char.isDigit

/-- `str.startsWith('IMO')`. -/
def startsWithIMO (s : String) : Bool :=
  match s.data with
  | a :: b :: c :: _ => a == 'I' && b == 'M' && c == 'O'
  | _ => false

/-- `/^IMO\d{7}$/`: the literal prefix `IMO` followed by exactly seven digits. -/
def isPrefixedIMO (s : String) : Bool :=
  match s.data with
  | a :: b :: c :: rest =>
      a == 'I' && b == 'M' && c == 'O' && rest.length == 7 && rest.all Char.isDigit
  | _ => false

/-- `/^\d{7}$/`: exactly seven digits (bare IMO format). -/
def isBareIMO (s : String) : Bool :=
  s.data.length == 7 && s.data.all Char.isDigit

/-- `identifier.substring(3)`: drop the three prefix characters. -/
def dropIMO (s : String) : String :=
  ⟨s.data.drop 3⟩

/-- `identifier.startsWith('IMO') ? identifier.substring(3) : identifier`
(the "Clean IMO format if needed" step shared by the entry points). -/
def cleanIdentifier (s : String) : String :=
  if startsWithIMO s then dropIMO s else s

/-! ## Entry-point identifier validation

Each entry point validates the identifier and, on success, passes the
cleaned identifier to the client.  The validation happens before any
network call: the `Except.ok` value is what reaches the client. -/

/-- Error message of the position and details tools for a bad identifier. -/
def invalidIdentifierToolMsg : String :=
  "Invalid vessel identifier. Must be a 9-digit MMSI number or IMO number (format: IMO1234567)"

/-- Error message of the vessel resource for a bad identifier. -/
def invalidIdentifierResourceMsg : String :=
  "Invalid vessel identifier. Must be a 9-digit MMSI number or IMO number (optionally prefixed with \"IMO\")"

/-- `getVesselPositionTool` identifier validation and cleaning
(src/tools/vessel-position.ts lines 27-37): rejects with
`McpError(InvalidParams, ...)` unless the identifier matches `/^\d{9}$/`
or `/^IMO\d{7}$/`; otherwise returns the cleaned identifier. -/
def positionToolValidate (identifier : String) : Except McpError String :=
  if !isMMSIFormat identifier && !isPrefixedIMO identifier then
    .error ⟨.invalidParams, invalidIdentifierToolMsg⟩
  else
    .ok (cleanIdentifier identifier)

/-- `getVesselDetailsTool` identifier validation and cleaning
(src/tools/vessel-details.ts lines 131-141): same checks as the position
tool. -/
def detailsToolValidate (identifier : String) : Except McpError String :=
  if !isMMSIFormat identifier && !isPrefixedIMO identifier then
    .error ⟨.invalidParams, invalidIdentifierToolMsg⟩
  else
    .ok (cleanIdentifier identifier)

/-- `getVesselResource` identifier validation and cleaning
(src/resources/vessel.ts lines 54-64): additionally accepts a bare
7-digit IMO, and rejects with `McpError(InvalidRequest, ...)`. -/
def vesselResourceValidate (identifier : String) : Except McpError String :=
  if !isMMSIFormat identifier && !isPrefixedIMO identifier && !isBareIMO identifier then
    .error ⟨.invalidRequest, invalidIdentifierResourceMsg⟩
  else
    .ok (cleanIdentifier identifier)

/-! ## Client query-parameter construction

`getVesselPosition` and `getVesselDetails` (api-client.ts lines 150-161
and 166-177) re-derive MMSI-vs-IMO with `/^\d{9}$/` and put the
identifier under exactly one key of an initially empty parameter
object. -/

/-- The parameter object built by `MarineTrafficApiClient.getVesselPosition`. -/
def getVesselPositionParams (identifier : String) : List (String × String) :=
  if isMMSIFormat identifier then [("mmsi", identifier)] else [("imo", identifier)]

/-- The parameter object built by `MarineTrafficApiClient.getVesselDetails`. -/
def getVesselDetailsParams (identifier : String) : List (String × String) :=
  if isMMSIFormat identifier then [("mmsi", identifier)] else [("imo", identifier)]

/-- Whether a parameter object contains a key. -/
def hasKey (ps : List (String × String)) (k : String) : Bool :=
  ps.any (fun p => p.1 == k)

/-- Association-list lookup, viewing a parameter object as a partial map. -/
def lookupParams (ps : List (String × String)) : String → Option String :=
  fun k => (ps.find? (fun p => p.1 == k)).map Prod.snd

/-! ## Search and area parameter objects -/

/-- A `SearchParams` object (api-client.ts lines 56-61): all four fields
optional.  JavaScript field values may be absent (`none`) or present. -/
structure SearchParams where
  vessel_name : Option String
  mmsi : Option String
  imo : Option String
  ship_type : Option Int
deriving DecidableEq, Repr

/-- An `AreaParams` object (api-client.ts lines 64-70). -/
structure AreaParams where
  center_lat : Int
  center_lon : Int
  radius : Int
  min_ship_type : Option Int
  max_ship_type : Option Int
deriving DecidableEq, Repr

/-- The query map sent by `searchVessels`: the criteria object passed
through verbatim as query parameters. -/
def searchParamsQuery (args : SearchParams) : String → Option String :=
  fun k =>
    if k = "vessel_name" then args.vessel_name
    else if k = "mmsi" then args.mmsi
    else if k = "imo" then args.imo
    else if k = "ship_type" then args.ship_type.map toString
    else none

/-- The query map sent by `getVesselsInArea`: the area object's fields as
query parameters. -/
def areaParamsQuery (a : AreaParams) : String → Option String :=
  fun k =>
    if k = "center_lat" then some (toString a.center_lat)
    else if k = "center_lon" then some (toString a.center_lon)
    else if k = "radius" then some (toString a.radius)
    else if k = "min_ship_type" then a.min_ship_type.map toString
    else if k = "max_ship_type" then a.max_ship_type.map toString
    else none

/-! ## Credential injection

The axios request interceptor (api-client.ts lines 91-97) replaces the
request's params with `\x7b ...config.params, apiKey: this.apiKey \x7d`:
every caller-supplied entry is kept and the stored credential is set
under the `apiKey` key. -/

/-- The request interceptor's effect on the query map. -/
def addApiKey (apiKey : String) (params : String → Option String) :
    String → Option String :=
  fun k => if k = "apiKey" then some apiKey else params k

/-- An outgoing HTTP GET request: endpoint path and final query map. -/
structure OutgoingRequest where
  endpoint : String
  query : String → Option String

/-- Every request issued through the axios instance passes through the
interceptor before being sent. -/
def sentRequest (apiKey endpoint : String) (params : String → Option String) :
    OutgoingRequest :=
  ⟨endpoint, addApiKey apiKey params⟩

/-- Endpoint paths (api-client.ts lines 5-10). -/
def VESSEL_POSITION : String := "/exportvessel/v:5/position"

def VESSEL_DETAILS : String := "/exportvessel/v:4/vesseldetails"

def VESSEL_SEARCH : String := "/exportvessel/v:5/ps01"

def VESSELS_IN_AREA : String := "/exportvessel/v:5/ps02"

/-- The request sent by `getVesselPosition identifier`. -/
def positionRequest (apiKey identifier : String) : OutgoingRequest :=
  sentRequest apiKey VESSEL_POSITION (lookupParams (getVesselPositionParams identifier))

/-- The request sent by `getVesselDetails identifier`. -/
def detailsRequest (apiKey identifier : String) : OutgoingRequest :=
  sentRequest apiKey VESSEL_DETAILS (lookupParams (getVesselDetailsParams identifier))

/-- The request sent by `searchVessels criteria`. -/
def searchRequest (apiKey : String) (criteria : SearchParams) : OutgoingRequest :=
  sentRequest apiKey VESSEL_SEARCH (searchParamsQuery criteria)

/-- The request sent by `getVesselsInArea area`. -/
def areaRequest (apiKey : String) (a : AreaParams) : OutgoingRequest :=
  sentRequest apiKey VESSELS_IN_AREA (areaParamsQuery a)

/-! ## Retry/backoff and error classification

`makeRequest` (api-client.ts lines 103-145): each attempt performs a GET;
on success the response data is returned.  On an axios error with a
response of status 429 and `retryCount < maxRetries`, the client waits
`retryDelay * 2 ^ retryCount` milliseconds and recurses with
`retryCount + 1`; a 401 response raises the invalid-API-key error; any
other response raises the generic API error carrying the status and
body; no response at all raises the network error.  The network is
modelled as a function from the attempt's retry count to its outcome. -/

/-- Outcome of a single HTTP attempt as seen by the catch block. -/
inductive HttpOutcome where
  | success (body : String)
  | httpError (status : Nat) (body : String)
  | noResponse
deriving DecidableEq, Repr

/-- `private maxRetries: number = 3`. -/
def maxRetries : Nat := 3

/-- `private retryDelay: number = 1000`. -/
def retryDelay : Nat := 1000

/-- `ERROR_MESSAGES.INVALID_API_KEY`, raised as `McpError(InvalidRequest, ...)`. -/
def invalidApiKeyError : McpError :=
  ⟨.invalidRequest, "Invalid MarineTraffic API key"⟩

/-- `ERROR_MESSAGES.NETWORK_ERROR`, raised as `McpError(InternalError, ...)`. -/
def networkError : McpError :=
  ⟨.internalError, "Network error while connecting to MarineTraffic API"⟩

/-- The generic API error: `McpError(InternalError, "MarineTraffic API
error: <status> - <data>")`. -/
def apiError (status : Nat) (body : String) : McpError :=
  ⟨.internalError, "MarineTraffic API error: " ++ toString status ++ " - " ++ body⟩

/-- Observable result of a `makeRequest` call: the returned value or
thrown error, the backoff waits performed in order, and the number of
HTTP attempts made. -/
structure RequestResult where
  outcome : Except McpError String
  delays : List Nat
  attempts : Nat
deriving Repr

/-- `makeRequest(endpoint, params, retryCount)`, with the network
abstracted as the outcome of each attempt indexed by its retry count. -/
def makeRequest (net : Nat → HttpOutcome) (retryCount : Nat) : RequestResult :=
  match net retryCount with
  | .success body => { outcome := .ok body, delays := [], attempts := 1 }
  | .noResponse => { outcome := .error networkError, delays := [], attempts := 1 }
  | .httpError status body =>
    if h : status = 429 ∧ retryCount < maxRetries then
      let rest := makeRequest net (retryCount + 1)
      { outcome := rest.outcome,
        delays := retryDelay * 2 ^ retryCount :: rest.delays,
        attempts := rest.attempts + 1 }
    else if status = 401 then
      { outcome := .error invalidApiKeyError, delays := [], attempts := 1 }
    else
      { outcome := .error (apiError status body), delays := [], attempts := 1 }
termination_by maxRetries + 1 - retryCount
decreasing_by omega

/-- A full request starts at `retryCount = 0`. -/
def runRequest (net : Nat → HttpOutcome) : RequestResult :=
  makeRequest net 0

/-! ## Search tool validation and in-place IMO normalization

`searchVesselsTool` (vessel-search.ts lines 62-96): checks that at least
one criteria field is truthy, then the MMSI format, then the IMO format,
then overwrites `args.imo` in place when it starts with `IMO`, and only
then calls the client.  JavaScript truthiness makes the empty string and
the number 0 count as absent. -/

/-- JavaScript truthiness of an optional string field: `undefined` and
the empty string are falsy. -/
def truthyStr : Option String → Bool
  | none => false
  | some s => !s.data.isEmpty

/-- JavaScript truthiness of an optional numeric field: `undefined` and
`0` are falsy. -/
def truthyNum : Option Int → Bool
  | none => false
  | some n => n != 0

/-- The at-least-one-parameter error message of the search tool. -/
def atLeastOneMsg : String :=
  "At least one search parameter (vessel_name, mmsi, imo, or ship_type) must be provided"

/-- The search tool's MMSI format error message. -/
def invalidMMSIMsg : String :=
  "Invalid MMSI number. Must be a 9-digit number"

/-- The search tool's IMO format error message. -/
def invalidIMOMsg : String :=
  "Invalid IMO number. Must be a 7-digit number, optionally prefixed with \"IMO\""

/-- The validation and normalization phase of `searchVesselsTool`: the
thrown error, or the criteria object as it stands when the client is
called — which is the caller's own object, mutated in place at line 93
when `imo` starts with `IMO`. -/
def searchVesselsValidate (args : SearchParams) : Except McpError SearchParams :=
  if !truthyStr args.vessel_name && !truthyStr args.mmsi && !truthyStr args.imo
      && !truthyNum args.ship_type then
    .error ⟨.invalidParams, atLeastOneMsg⟩
  else if truthyStr args.mmsi && !isMMSIFormat (args.mmsi.getD "") then
    .error ⟨.invalidParams, invalidMMSIMsg⟩
  else if truthyStr args.imo && !isPrefixedIMO (args.imo.getD "")
      && !isBareIMO (args.imo.getD "") then
    .error ⟨.invalidParams, invalidIMOMsg⟩
  else if truthyStr args.imo && startsWithIMO (args.imo.getD "") then
    .ok { args with imo := some (dropIMO (args.imo.getD "")) }
  else
    .ok args

/-- The caller's criteria object after the tool call: the in-place
mutation happens only after every validation check has passed, so on an
error the object is unchanged. -/
def searchVesselsFinalArgs (args : SearchParams) : SearchParams :=
  match searchVesselsValidate args with
  | .ok a => a
  | .error _ => args

/-! ## Response entities -/

/-- A `VesselPosition` response entity (api-client.ts lines 22-36).
Upstream numeric values are modelled as integers: the claims only
concern their presence and truthiness. -/
structure VesselPosition where
  mmsi : String
  imo : Option String
  ship_name : Option String
  latitude : Int
  longitude : Int
  speed : Int
  heading : Option Int
  course : Option Int
  status : Option String
  timestamp : String
  ship_type : Option Int
  destination : Option String
  eta : Option String
deriving DecidableEq, Repr

/-- A `VesselDetails` response entity (api-client.ts lines 39-53). -/
structure VesselDetails where
  mmsi : String
  imo : Option String
  name : String
  ship_type : Int
  type_name : Option String
  callsign : Option String
  flag : Option String
  gross_tonnage : Option Int
  summer_dwt : Option Int
  length_overall : Option Int
  breadth_extreme : Option Int
  year_built : Option Int
  home_port : Option String
deriving DecidableEq, Repr

/-! ## Combined vessel lookup (vessel resource) -/

/-- `.catch(error => null)`: a branch's failure becomes `null`. -/
def catchToNull {α : Type} : Except McpError α → Option α
  | .ok v => some v
  | .error _ => none

/-- The error thrown by the vessel resource when both fetches failed. -/
def noDataError (identifier : String) : McpError :=
  ⟨.invalidRequest, "No data found for vessel with identifier: " ++ identifier⟩

/-- The parallel dual fetch of `getVesselResource` (vessel.ts lines
66-83): position and details are fetched independently, each branch's
failure is caught and converted to `null`, and the aggregate fails (with
the no-data error) exactly when both are `null`. -/
def vesselResourceDualFetch (identifier : String)
    (posResult : Except McpError VesselPosition)
    (detResult : Except McpError VesselDetails) :
    Except McpError (Option VesselPosition × Option VesselDetails) :=
  let position := catchToNull posResult
  let details := catchToNull detResult
  if position.isNone && details.isNone then
    .error (noDataError identifier)
  else
    .ok (position, details)

/-- A concrete position payload, used as a witness input. -/
def samplePosition : VesselPosition :=
  { mmsi := "123456789", imo := some "1234567", ship_name := some "EVER GIVEN"
    latitude := 31, longitude := 32, speed := 12, heading := some 270
    course := some 270, status := some "Under way", timestamp := "2021-03-23T12:00:00Z"
    ship_type := some 7, destination := some "ROTTERDAM", eta := some "2021-04-01" }

/-! ## Formatting of optional numeric fields

`formatVesselData` (vessel-search.ts lines 124-143, and the identical
copies in vessels-in-area.ts and the area resource) and the position
tool's response assembly (vessel-position.ts lines 42-57) render
optional fields with JavaScript truthiness tests such as
`vessel.course ? ... : 'N/A'`.  `new Date(...).toISOString()` is
abstracted as a function parameter `iso`. -/

/-- `SHIP_TYPE_MAPPING` (vessel-search.ts lines 37-60). -/
def SHIP_TYPE_MAPPING (c : Int) : Option String :=
  if c = 0 then some "Not available"
  else if c = 1 then some "Reserved"
  else if c = 2 then some "Wing In Ground"
  else if c = 4 then some "High-Speed Craft"
  else if c = 6 then some "Passenger"
  else if c = 7 then some "Cargo"
  else if c = 8 then some "Tanker"
  else if c = 9 then some "Other"
  else if c = 30 then some "Fishing"
  else if c = 31 then some "Towing"
  else if c = 32 then some "Towing"
  else if c = 33 then some "Dredging"
  else if c = 34 then some "Diving"
  else if c = 35 then some "Military"
  else if c = 36 then some "Sailing"
  else if c = 37 then some "Pleasure Craft"
  else if c = 50 then some "Pilot Vessel"
  else if c = 51 then some "Search and Rescue"
  else if c = 52 then some "Tug"
  else if c = 53 then some "Port Tender"
  else if c = 54 then some "Anti-Pollution"
  else if c = 55 then some "Law Enforcement"
  else none

/-- The object literal returned by `formatVesselData`. -/
structure FormattedVessel where
  mmsi : String
  imo : String
  name : String
  position : Int × Int
  speed : String
  course : String
  status : String
  type : String
  destination : String
  eta : String
  last_update : String
deriving DecidableEq, Repr

/-- `formatVesselData(vessel)` (vessel-search.ts lines 124-143). -/
def formatVesselData (iso : String → String) (v : VesselPosition) : FormattedVessel :=
  { mmsi := v.mmsi
    imo := if truthyStr v.imo then v.imo.getD "" else "N/A"
    name := if truthyStr v.ship_name then v.ship_name.getD "" else "Unknown"
    position := (v.latitude, v.longitude)
    speed := toString v.speed ++ " knots"
    course := if truthyNum v.course then toString (v.course.getD 0) ++ "°" else "N/A"
    status := if truthyStr v.status then v.status.getD "" else "Unknown"
    type := if truthyNum v.ship_type then
        toString (v.ship_type.getD 0) ++ " ("
          ++ (SHIP_TYPE_MAPPING (v.ship_type.getD 0)).getD "Unknown" ++ ")"
      else "Unknown"
    destination := if truthyStr v.destination then v.destination.getD "" else "Unknown"
    eta := if truthyStr v.eta then v.eta.getD "" else "Unknown"
    last_update := iso v.timestamp }

/-- The object literal assembled by `getVesselPositionTool`. -/
structure FormattedPosition where
  mmsi : String
  imo : String
  name : String
  position : Int × Int
  speed : String
  course : String
  heading : String
  status : String
  last_update : String
  destination : String
  eta : String
deriving DecidableEq, Repr

/-- The formatted response of `getVesselPositionTool`
(vessel-position.ts lines 42-57). -/
def positionToolFormat (iso : String → String) (v : VesselPosition) : FormattedPosition :=
  { mmsi := v.mmsi
    imo := if truthyStr v.imo then v.imo.getD "" else "N/A"
    name := if truthyStr v.ship_name then v.ship_name.getD "" else "Unknown"
    position := (v.latitude, v.longitude)
    speed := toString v.speed ++ " knots"
    course := if truthyNum v.course then toString (v.course.getD 0) ++ "°" else "N/A"
    heading := if truthyNum v.heading then toString (v.heading.getD 0) ++ "°" else "N/A"
    status := if truthyStr v.status then v.status.getD "" else "Unknown"
    last_update := iso v.timestamp
    destination := if truthyStr v.destination then v.destination.getD "" else "Unknown"
    eta := if truthyStr v.eta then v.eta.getD "" else "Unknown" }

/-! ## Theorems -/

/-! ### Helper lemmas about the format predicates -/

/-- A string of digits does not start with the letter `I`. -/
theorem startsWithIMO_eq_false_of_digits (s : String)
    (h : s.data.all Char.isDigit = true) : startsWithIMO s = false := by
  unfold startsWithIMO
  rcases hd : s.data with _ | ⟨a, _ | ⟨b, _ | ⟨c, rest⟩⟩⟩
  any_goals rfl
  rw [hd] at h
  simp only [List.all_cons, Bool.and_eq_true] at h
  by_cases ha : a = 'I'
  · subst ha
    exact absurd h.1 (by decide)
  · simp [ha]

/-- An `IMO`-prefixed identifier starts with `IMO`. -/
theorem startsWithIMO_of_isPrefixedIMO (s : String)
    (h : isPrefixedIMO s = true) : startsWithIMO s = true := by
  unfold isPrefixedIMO at h
  unfold startsWithIMO
  rcases hd : s.data with _ | ⟨a, _ | ⟨b, _ | ⟨c, rest⟩⟩⟩ <;> rw [hd] at h <;>
    simp only [Bool.and_eq_true] at h ⊢
  · exact absurd h (by simp)
  · exact absurd h (by simp)
  · exact absurd h (by simp)
  · exact ⟨⟨h.1.1.1.1, h.1.1.1.2⟩, h.1.1.2⟩

/-- An all-digit string is not `IMO`-prefixed. -/
theorem isPrefixedIMO_eq_false_of_digits (s : String)
    (h : s.data.all Char.isDigit = true) : isPrefixedIMO s = false := by
  unfold isPrefixedIMO
  rcases hd : s.data with _ | ⟨a, _ | ⟨b, _ | ⟨c, rest⟩⟩⟩
  any_goals rfl
  rw [hd] at h
  simp only [List.all_cons, Bool.and_eq_true] at h
  by_cases ha : a = 'I'
  · subst ha
    exact absurd h.1 (by decide)
  · simp [ha]

/-- An MMSI-format string (nine digits) does not start with `IMO`. -/
theorem startsWithIMO_eq_false_of_isMMSIFormat (s : String)
    (h : isMMSIFormat s = true) : startsWithIMO s = false := by
  unfold isMMSIFormat at h
  simp only [Bool.and_eq_true] at h
  exact startsWithIMO_eq_false_of_digits s h.2

/-- A bare 7-digit IMO string is not MMSI-format. -/
theorem isMMSIFormat_eq_false_of_isBareIMO (s : String)
    (h : isBareIMO s = true) : isMMSIFormat s = false := by
  unfold isBareIMO at h
  unfold isMMSIFormat
  simp only [Bool.and_eq_true, beq_iff_eq] at h
  have h9 : (s.data.length == 9) = false := by
    simp only [beq_eq_false_iff_ne, ne_eq]
    omega
  rw [h9, Bool.false_and]

/-- C2: for every identifier, the parameter map built by the Client's
`getVesselPosition` and `getVesselDetails` contains the key `mmsi`
exactly when the identifier matches nine digits and the key `imo`
otherwise — exactly one of the two keys, never both, never neither. -/
theorem C2_exactly_one_identifier_key (identifier : String) :
    hasKey (getVesselPositionParams identifier) "mmsi" = isMMSIFormat identifier ∧
    hasKey (getVesselPositionParams identifier) "imo" = !isMMSIFormat identifier ∧
    hasKey (getVesselDetailsParams identifier) "mmsi" = isMMSIFormat identifier ∧
    hasKey (getVesselDetailsParams identifier) "imo" = !isMMSIFormat identifier ∧
    hasKey (getVesselPositionParams identifier) "mmsi"
      ≠ hasKey (getVesselPositionParams identifier) "imo" ∧
    hasKey (getVesselDetailsParams identifier) "mmsi"
      ≠ hasKey (getVesselDetailsParams identifier) "imo" := by
  by_cases h : isMMSIFormat identifier <;>
    simp [getVesselPositionParams, getVesselDetailsParams, hasKey, h]

/-- C8: every outgoing request of the four Client operations carries the
stored credential under the `apiKey` query key, injected by the request
interceptor; no caller-supplied parameter map contains `apiKey`, and
every caller-supplied parameter is preserved unchanged alongside it. -/
theorem C8_api_key_injection (apiKey identifier : String)
    (criteria : SearchParams) (a : AreaParams) (k : String) :
    ((positionRequest apiKey identifier).query "apiKey" = some apiKey ∧
     (detailsRequest apiKey identifier).query "apiKey" = some apiKey ∧
     (searchRequest apiKey criteria).query "apiKey" = some apiKey ∧
     (areaRequest apiKey a).query "apiKey" = some apiKey) ∧
    (lookupParams (getVesselPositionParams identifier) "apiKey" = none ∧
     lookupParams (getVesselDetailsParams identifier) "apiKey" = none ∧
     searchParamsQuery criteria "apiKey" = none ∧
     areaParamsQuery a "apiKey" = none) ∧
    (k ≠ "apiKey" →
     (positionRequest apiKey identifier).query k
        = lookupParams (getVesselPositionParams identifier) k ∧
     (detailsRequest apiKey identifier).query k
        = lookupParams (getVesselDetailsParams identifier) k ∧
     (searchRequest apiKey criteria).query k = searchParamsQuery criteria k ∧
     (areaRequest apiKey a).query k = areaParamsQuery a k) := by
  refine ⟨?_, ?_, fun hk => ?_⟩
  · exact ⟨rfl, rfl, rfl, rfl⟩
  · refine ⟨?_, ?_, ?_, ?_⟩ <;>
      first
        | (by_cases h : isMMSIFormat identifier <;>
            simp [lookupParams, getVesselPositionParams, getVesselDetailsParams, h])
        | simp [searchParamsQuery, areaParamsQuery]
  · refine ⟨?_, ?_, ?_, ?_⟩ <;>
      simp [positionRequest, detailsRequest, searchRequest, areaRequest,
        sentRequest, addApiKey, hk]

/-- C8 witness: instantiating the theorem at concrete inputs. -/
theorem C8_api_key_injection_witness :
    ("mmsi" : String) ≠ "apiKey" ∧
    ((positionRequest "secret" "123456789").query "apiKey" = some "secret" ∧
     (detailsRequest "secret" "123456789").query "apiKey" = some "secret" ∧
     (searchRequest "secret" ⟨some "Ever Given", none, none, none⟩).query "apiKey"
        = some "secret" ∧
     (areaRequest "secret" ⟨37, -122, 10, none, none⟩).query "apiKey" = some "secret") ∧
    (positionRequest "secret" "123456789").query "mmsi" = some "123456789" :=
  have h := C8_api_key_injection "secret" "123456789"
    ⟨some "Ever Given", none, none, none⟩ ⟨37, -122, 10, none, none⟩ "mmsi"
  ⟨by decide, h.1, by
    rw [(h.2.2 (by decide)).1]
    decide⟩

/-- One unfolding step of `makeRequest` when the attempt gets a 429 with
retries remaining. -/
theorem makeRequest_429_step (net : Nat → HttpOutcome) (rc : Nat) (body : String)
    (hnet : net rc = .httpError 429 body) (hrc : rc < maxRetries) :
    makeRequest net rc =
      { outcome := (makeRequest net (rc + 1)).outcome,
        delays := retryDelay * 2 ^ rc :: (makeRequest net (rc + 1)).delays,
        attempts := (makeRequest net (rc + 1)).attempts + 1 } := by
  rw [makeRequest, hnet]
  simp [hrc]

/-- C3: when the first three attempts all receive HTTP 429, the client
waits exactly 1000ms, 2000ms and 4000ms before the 2nd, 3rd and 4th
attempts, makes exactly four attempts, and returns the 4th attempt's
outcome, the 4th attempt itself performing no wait and no further
retry. -/
theorem C3_retry_backoff (net : Nat → HttpOutcome) (b0 b1 b2 : String)
    (h0 : net 0 = .httpError 429 b0) (h1 : net 1 = .httpError 429 b1)
    (h2 : net 2 = .httpError 429 b2) :
    (runRequest net).delays = [1000, 2000, 4000] ∧
    (runRequest net).attempts = 4 ∧
    (runRequest net).outcome = (makeRequest net 3).outcome ∧
    (makeRequest net 3).delays = [] ∧
    (makeRequest net 3).attempts = 1 := by
  have e0 := makeRequest_429_step net 0 b0 h0 (by decide)
  have e1 := makeRequest_429_step net 1 b1 h1 (by decide)
  have e2 := makeRequest_429_step net 2 b2 h2 (by decide)
  have h3 : (makeRequest net 3).delays = [] ∧ (makeRequest net 3).attempts = 1 := by
    rw [makeRequest]
    rcases net 3 with _ | ⟨status, body⟩ | _
    · exact ⟨rfl, rfl⟩
    · have : ¬(status = 429 ∧ 3 < maxRetries) := by
        rintro ⟨-, hlt⟩
        simp [maxRetries] at hlt
      simp only [this, dite_false]
      by_cases h401 : status = 401 <;> simp [h401]
    · exact ⟨rfl, rfl⟩
  unfold runRequest
  rw [e0, e1, e2]
  simp [retryDelay, h3.1, h3.2]

/-- C3 witness: a network giving 429 on the first three attempts and a
success on the fourth. -/
theorem C3_retry_backoff_witness :
    (runRequest (fun n => if n < 3 then .httpError 429 "limit" else .success "pos")).delays
      = [1000, 2000, 4000] ∧
    (runRequest (fun n => if n < 3 then .httpError 429 "limit" else .success "pos")).attempts
      = 4 ∧
    (makeRequest (fun n => if n < 3 then .httpError 429 "limit" else .success "pos") 3).outcome
      = .ok "pos" :=
  have h := C3_retry_backoff (fun n => if n < 3 then .httpError 429 "limit" else .success "pos")
    "limit" "limit" "limit" (by decide) (by decide) (by decide)
  ⟨h.1, h.2.1, by rw [makeRequest]; rfl⟩

/-- C4: when all four attempts receive HTTP 429, the caller receives the
generic API error carrying status 429 (not a distinct rate-limit error),
and exactly four attempts are made — no fifth. -/
theorem C4_rate_limit_exhausted (net : Nat → HttpOutcome) (b0 b1 b2 b3 : String)
    (h0 : net 0 = .httpError 429 b0) (h1 : net 1 = .httpError 429 b1)
    (h2 : net 2 = .httpError 429 b2) (h3 : net 3 = .httpError 429 b3) :
    (runRequest net).outcome = .error (apiError 429 b3) ∧
    (runRequest net).attempts = 4 ∧
    apiError 429 b3 = ⟨.internalError, "MarineTraffic API error: 429 - " ++ b3⟩ := by
  have e0 := makeRequest_429_step net 0 b0 h0 (by decide)
  have e1 := makeRequest_429_step net 1 b1 h1 (by decide)
  have e2 := makeRequest_429_step net 2 b2 h2 (by decide)
  have e3 : makeRequest net 3 =
      { outcome := .error (apiError 429 b3), delays := [], attempts := 1 } := by
    rw [makeRequest, h3]
    simp [maxRetries]
  unfold runRequest
  rw [e0, e1, e2, e3]
  exact ⟨rfl, rfl, rfl⟩

/-- C4 witness: a network answering 429 on every attempt. -/
theorem C4_rate_limit_exhausted_witness :
    (runRequest (fun _ => .httpError 429 "limit")).outcome
      = .error (apiError 429 "limit") ∧
    (runRequest (fun _ => .httpError 429 "limit")).attempts = 4 :=
  have h := C4_rate_limit_exhausted (fun _ => .httpError 429 "limit")
    "limit" "limit" "limit" "limit" rfl rfl rfl rfl
  ⟨h.1, h.2.1⟩

/-- C5: a 401 response at any retry depth immediately raises the
invalid-credential error with no wait and no further attempt; 401 is
never retried. -/
theorem C5_unauthorized_never_retried (net : Nat → HttpOutcome) (k : Nat)
    (body : String) (hk : net k = .httpError 401 body) :
    (makeRequest net k).outcome = .error invalidApiKeyError ∧
    (makeRequest net k).delays = [] ∧
    (makeRequest net k).attempts = 1 := by
  rw [makeRequest, hk]
  have hno : ¬((401 : Nat) = 429 ∧ k < maxRetries) := by
    rintro ⟨h429, -⟩
    exact absurd h429 (by decide)
  simp [hno]

/-- C5 witness: a 401 on the second attempt (retry depth 1). -/
theorem C5_unauthorized_never_retried_witness :
    (makeRequest (fun n => if n = 0 then .httpError 429 "limit"
      else .httpError 401 "denied") 1).outcome = .error invalidApiKeyError ∧
    (makeRequest (fun n => if n = 0 then .httpError 429 "limit"
      else .httpError 401 "denied") 1).attempts = 1 :=
  have h := C5_unauthorized_never_retried
    (fun n => if n = 0 then .httpError 429 "limit" else .httpError 401 "denied")
    1 "denied" rfl
  ⟨h.1, h.2.2⟩

/-- A string starting with `IMO` is truthy (non-empty). -/
theorem truthyStr_of_startsWithIMO (s : String) (h : startsWithIMO s = true) :
    truthyStr (some s) = true := by
  unfold startsWithIMO at h
  unfold truthyStr
  rcases hd : s.data with _ | ⟨a, l⟩
  · rw [hd] at h
    exact absurd h (by simp)
  · simp [hd]

/-- C6 (counterexample): the claim says the at-least-one check passes
whenever at least one of the four criteria fields is present; in the
code a criteria object whose only present field is `ship_type: 0` is
rejected with the at-least-one invalid-params error, because the check
uses JavaScript truthiness and `0` is falsy. -/
theorem C6_counterexample :
    (SearchParams.mk none none none (some 0)).ship_type.isSome = true ∧
    searchVesselsValidate ⟨none, none, none, some 0⟩ =
      .error ⟨.invalidParams, atLeastOneMsg⟩ :=
  ⟨rfl, rfl⟩

/-- C6 (amended): the search tool rejects the criteria with the
at-least-one invalid-params error, before any network call, exactly when
every one of `vessel_name`, `mmsi`, `imo` is absent or the empty string
and `ship_type` is absent or zero (JavaScript-falsy); whenever at least
one of the four fields holds a truthy value, the at-least-one check
passes and the tool proceeds to format validation. -/
theorem C6_search_criteria_check (args : SearchParams) :
    searchVesselsValidate args = .error ⟨.invalidParams, atLeastOneMsg⟩
      ↔ truthyStr args.vessel_name = false ∧ truthyStr args.mmsi = false ∧
        truthyStr args.imo = false ∧ truthyNum args.ship_type = false := by
  unfold searchVesselsValidate
  by_cases h : (!truthyStr args.vessel_name && !truthyStr args.mmsi &&
      !truthyStr args.imo && !truthyNum args.ship_type) = true
  · rw [if_pos h]
    simp only [Bool.and_eq_true, Bool.not_eq_true'] at h
    exact ⟨fun _ => ⟨h.1.1.1, h.1.1.2, h.1.2, h.2⟩, fun _ => rfl⟩
  · rw [if_neg h]
    have hrhs : ¬(truthyStr args.vessel_name = false ∧ truthyStr args.mmsi = false ∧
        truthyStr args.imo = false ∧ truthyNum args.ship_type = false) := by
      rintro ⟨h1, h2, h3, h4⟩
      exact h (by rw [h1, h2, h3, h4]; rfl)
    refine ⟨fun heq => ?_, fun hc => absurd hc hrhs⟩
    exfalso
    split at heq
    · rw [Except.error.injEq, McpError.mk.injEq] at heq
      exact absurd heq.2 (by decide)
    split at heq
    · rw [Except.error.injEq, McpError.mk.injEq] at heq
      exact absurd heq.2 (by decide)
    split at heq <;> simp at heq

/-- C9 (counterexample): the claim says that whenever the `imo` field is
present and begins with `IMO` it is overwritten in place with the prefix
stripped; in the code the strip happens only after format validation, so
for `imo: "IMO12345678"` (eight digits) the tool throws the IMO format
error first and the caller's object is left unchanged. -/
theorem C9_counterexample :
    startsWithIMO "IMO12345678" = true ∧
    searchVesselsValidate ⟨none, none, some "IMO12345678", none⟩
      = .error ⟨.invalidParams, invalidIMOMsg⟩ ∧
    (searchVesselsFinalArgs ⟨none, none, some "IMO12345678", none⟩).imo
      = some "IMO12345678" := by
  refine ⟨by decide, ?_, ?_⟩ <;> rfl

/-- C9 (amended): when the search tool's validation passes (the call
returns instead of throwing), an `imo` field beginning with `IMO` has
been overwritten in place with the prefix stripped, an `imo` field not
beginning with `IMO` is unchanged, and the other three fields are always
unchanged; when validation throws, the caller's object is entirely
unchanged. -/
theorem C9_search_imo_mutation (args : SearchParams) :
    (∀ a, searchVesselsValidate args = .ok a →
      a.vessel_name = args.vessel_name ∧ a.mmsi = args.mmsi ∧
      a.ship_type = args.ship_type ∧
      searchVesselsFinalArgs args = a ∧
      (∀ s, args.imo = some s → startsWithIMO s = true → a.imo = some (dropIMO s)) ∧
      (∀ s, args.imo = some s → startsWithIMO s = false → a.imo = some s) ∧
      (args.imo = none → a.imo = none)) ∧
    (∀ e, searchVesselsValidate args = .error e → searchVesselsFinalArgs args = args) := by
  constructor
  · intro a ha
    have hfin : searchVesselsFinalArgs args = a := by
      unfold searchVesselsFinalArgs
      rw [ha]
    unfold searchVesselsValidate at ha
    split at ha
    · exact absurd ha (by simp)
    split at ha
    · exact absurd ha (by simp)
    split at ha
    · exact absurd ha (by simp)
    split at ha
    · rename_i g4
      rw [Except.ok.injEq] at ha
      subst ha
      refine ⟨rfl, rfl, rfl, hfin, ?_, ?_, ?_⟩
      · intro s hs _
        simp [hs]
      · intro s hs hsw
        rw [hs] at g4
        simp only [Option.getD_some, Bool.and_eq_true] at g4
        exact absurd g4.2 (by rw [hsw]; exact Bool.false_ne_true)
      · intro hnone
        rw [hnone] at g4
        exact absurd g4 (by simp [truthyStr])
    · rename_i g4
      rw [Except.ok.injEq] at ha
      subst ha
      refine ⟨rfl, rfl, rfl, hfin, ?_, ?_, ?_⟩
      · intro s hs hsw
        exfalso
        apply g4
        rw [hs, Option.getD_some, truthyStr_of_startsWithIMO s hsw, hsw]
        rfl
      · intro s hs _
        exact hs
      · intro hnone
        exact hnone
  · intro e he
    unfold searchVesselsFinalArgs
    rw [he]

/-- C9 witness: instantiating the amended theorem at a criteria object
with a valid prefixed IMO. -/
theorem C9_search_imo_mutation_witness :
    searchVesselsValidate ⟨none, none, some "IMO1234567", none⟩
      = .ok ⟨none, none, some "1234567", none⟩ ∧
    (searchVesselsFinalArgs ⟨none, none, some "IMO1234567", none⟩).imo
      = some "1234567" :=
  have h : searchVesselsValidate ⟨none, none, some "IMO1234567", none⟩
      = .ok ⟨none, none, some "1234567", none⟩ := rfl
  ⟨h, by
    rw [((C9_search_imo_mutation ⟨none, none, some "IMO1234567", none⟩).1
      ⟨none, none, some "1234567", none⟩ h).2.2.2.1]⟩

/-- C7: in the vessel resource's combined lookup the two fetches are
independent: a failed branch is converted to an absent result instead of
aborting the other, and the aggregate fails — with the no-data error —
exactly when both branches failed. -/
theorem C7_dual_fetch_independent (identifier : String)
    (p : Except McpError VesselPosition) (d : Except McpError VesselDetails) :
    (∀ v e, p = .ok v → d = .error e →
      vesselResourceDualFetch identifier p d = .ok (some v, none)) ∧
    (∀ e v, p = .error e → d = .ok v →
      vesselResourceDualFetch identifier p d = .ok (none, some v)) ∧
    (∀ v w, p = .ok v → d = .ok w →
      vesselResourceDualFetch identifier p d = .ok (some v, some w)) ∧
    (∀ e f, p = .error e → d = .error f →
      vesselResourceDualFetch identifier p d = .error (noDataError identifier)) := by
  refine ⟨fun v e hp hd => ?_, fun e v hp hd => ?_,
    fun v w hp hd => ?_, fun e f hp hd => ?_⟩ <;>
    subst hp <;> subst hd <;> rfl

/-- C7 witness: a successful position fetch beside a failed details
fetch yields the position with absent details. -/
theorem C7_dual_fetch_independent_witness :
    vesselResourceDualFetch "123456789" (.ok samplePosition)
      (.error networkError) = .ok (some samplePosition, none) :=
  (C7_dual_fetch_independent "123456789" (.ok samplePosition)
    (.error networkError)).1 samplePosition networkError rfl rfl

/-- C10: the formatters test optional numeric fields by truthiness: a
course or heading equal to 0 renders as "N/A" and a ship-type code of 0
renders as "Unknown", each indistinguishable from the field being
absent. -/
theorem C10_zero_is_absent (iso : String → String) (v : VesselPosition) :
    formatVesselData iso { v with course := some 0 }
      = formatVesselData iso { v with course := none } ∧
    (formatVesselData iso { v with course := some 0 }).course = "N/A" ∧
    formatVesselData iso { v with ship_type := some 0 }
      = formatVesselData iso { v with ship_type := none } ∧
    (formatVesselData iso { v with ship_type := some 0 }).type = "Unknown" ∧
    positionToolFormat iso { v with course := some 0 }
      = positionToolFormat iso { v with course := none } ∧
    (positionToolFormat iso { v with course := some 0 }).course = "N/A" ∧
    positionToolFormat iso { v with heading := some 0 }
      = positionToolFormat iso { v with heading := none } ∧
    (positionToolFormat iso { v with heading := some 0 }).heading = "N/A" := by
  refine ⟨?_, ?_, ?_, ?_, ?_, ?_, ?_, ?_⟩ <;>
    simp [formatVesselData, positionToolFormat, truthyNum]

/-- C1 (counterexample): the claim says a string of exactly 7 digits is
classified as an IMO number by the position tool and the details tool;
in the code both tools reject the 7-digit string "1234567" with an
invalid-params error (only the vessel resource accepts it). -/
theorem C1_counterexample :
    isBareIMO "1234567" = true ∧
    positionToolValidate "1234567" =
      .error ⟨.invalidParams, invalidIdentifierToolMsg⟩ ∧
    detailsToolValidate "1234567" =
      .error ⟨.invalidParams, invalidIdentifierToolMsg⟩ ∧
    vesselResourceValidate "1234567" = .ok "1234567" := by
  refine ⟨by decide, ?_, ?_, ?_⟩ <;> rfl

/-- C1 (amended): a 9-digit string is accepted unchanged (as an MMSI) by
all three validating entry points; "IMO" + 7 digits is accepted with the
prefix stripped by all three; a bare 7-digit string is rejected with an
invalid-params error by the position and details tools but accepted (as
an IMO) by the vessel resource; any other string is rejected by all
three — with an invalid-params error at the tools and an invalid-request
error at the resource — before any network call. -/
theorem C1_identifier_validation (s : String) :
    (isMMSIFormat s = true →
      positionToolValidate s = .ok s ∧ detailsToolValidate s = .ok s ∧
      vesselResourceValidate s = .ok s)
    ∧ (isPrefixedIMO s = true →
      positionToolValidate s = .ok (dropIMO s) ∧
      detailsToolValidate s = .ok (dropIMO s) ∧
      vesselResourceValidate s = .ok (dropIMO s))
    ∧ (isBareIMO s = true →
      positionToolValidate s = .error ⟨.invalidParams, invalidIdentifierToolMsg⟩ ∧
      detailsToolValidate s = .error ⟨.invalidParams, invalidIdentifierToolMsg⟩ ∧
      vesselResourceValidate s = .ok s)
    ∧ (isMMSIFormat s = false → isPrefixedIMO s = false → isBareIMO s = false →
      positionToolValidate s = .error ⟨.invalidParams, invalidIdentifierToolMsg⟩ ∧
      detailsToolValidate s = .error ⟨.invalidParams, invalidIdentifierToolMsg⟩ ∧
      vesselResourceValidate s = .error ⟨.invalidRequest, invalidIdentifierResourceMsg⟩) := by
  refine ⟨fun h => ?_, fun h => ?_, fun h => ?_, fun h1 h2 h3 => ?_⟩
  · have hdig : s.data.all Char.isDigit = true := by
      have := h
      unfold isMMSIFormat at this
      exact (Bool.and_eq_true _ _ |>.mp this).2
    have hsw := startsWithIMO_eq_false_of_digits s hdig
    simp [positionToolValidate, detailsToolValidate, vesselResourceValidate,
      cleanIdentifier, h, hsw]
  · have hsw := startsWithIMO_of_isPrefixedIMO s h
    simp [positionToolValidate, detailsToolValidate, vesselResourceValidate,
      cleanIdentifier, h, hsw]
  · have hdig : s.data.all Char.isDigit = true := by
      have := h
      unfold isBareIMO at this
      exact (Bool.and_eq_true _ _ |>.mp this).2
    have hsw := startsWithIMO_eq_false_of_digits s hdig
    have hpre := isPrefixedIMO_eq_false_of_digits s hdig
    have hmmsi := isMMSIFormat_eq_false_of_isBareIMO s h
    simp [positionToolValidate, detailsToolValidate, vesselResourceValidate,
      cleanIdentifier, h, hsw, hpre, hmmsi]
  · simp [positionToolValidate, detailsToolValidate, vesselResourceValidate,
      cleanIdentifier, h1, h2, h3]

/-- C1 witness: instantiating the amended theorem at "IMO1234567". -/
theorem C1_identifier_validation_witness :
    isPrefixedIMO "IMO1234567" = true ∧
    positionToolValidate "IMO1234567" = .ok (dropIMO "IMO1234567") ∧
    detailsToolValidate "IMO1234567" = .ok (dropIMO "IMO1234567") ∧
    vesselResourceValidate "IMO1234567" = .ok (dropIMO "IMO1234567") :=
  ⟨by decide, (C1_identifier_validation "IMO1234567").2.1 (by decide)⟩

end MarineTraffic
